import Mathlib

/-
Verification of the CV-validation core logic of the socium-code-challenge
repository: the result-aggregation policy (`processValidationResults`), the
model-reply fence stripping, the validation-task error handling, the prompt
builder (`createDocumentValidationPrompt`), and the upload endpoint's file
validation (`validateFileContent` / `cvRouter.upload`).

Numbers that the TypeScript source manipulates as IEEE doubles (confidence
scores, the 70% threshold) are embedded as exact rationals (`ℚ`) and exact
naturals; for the values appearing in this development the double
computations of the source coincide with the exact ones.
-/

namespace CVValidation

/-- The four status literals of the TS union type
`"match" | "partial_match" | "no_match" | "not_found"`
(interface `ValidationField` in the trigger task file). -/
inductive FieldStatus where
  | statusMatch
  | statusPartialMatch
  | statusNoMatch
  | statusNotFound
deriving DecidableEq, Repr

/-- TS interface `ValidationField`: one per-field verdict produced by the
model. `confidence: number` is embedded as `ℚ`. -/
structure ValidationField where
  field : String
  status : FieldStatus
  confidence : ℚ
  reason : String
  extractedValue : Option String
deriving DecidableEq, Repr

/-- TS interface `AIValidationResponse`. -/
structure AIValidationResponse where
  fields : List ValidationField
deriving DecidableEq, Repr

/-- The `summary` component of TS interface `ProcessedValidationResults`. -/
structure ValidationSummary where
  totalChecked : Nat
  matchCount : Nat
  partialMatchCount : Nat
  noMatchCount : Nat
  overallConfidence : ℚ
deriving DecidableEq, Repr

/-- TS interface `ProcessedValidationResults`. -/
structure ProcessedValidationResults where
  fields : List ValidationField
  summary : ValidationSummary
deriving DecidableEq, Repr

/-- The record returned by `processValidationResults`:
`{ overallStatus, processedResults, errors }`. -/
structure ValidationOutcome where
  overallStatus : String
  processedResults : ProcessedValidationResults
  errors : List String
deriving DecidableEq, Repr

/-- State of the counting loop of `processValidationResults`
(`matchCount`, `partialMatchCount`, `noMatchCount`, `totalChecked`,
`errors`, all initially zero / empty). -/
structure TallyState where
  matchCount : Nat
  partialMatchCount : Nat
  noMatchCount : Nat
  totalChecked : Nat
  errors : List String
deriving DecidableEq, Repr

/-- One iteration of the `for (const field of fields)` loop of
`processValidationResults`: bump the bucket for the field's status, push
`` `${field.field}: ${field.reason}` `` for a `no_match` field, and count the
field toward `totalChecked` unless its status is `not_found`. -/
def tallyStep (s : TallyState) (f : ValidationField) : TallyState :=
  let s :=
    match f.status with
    | .statusMatch => { s with matchCount := s.matchCount + 1 }
    | .statusPartialMatch => { s with partialMatchCount := s.partialMatchCount + 1 }
    | .statusNoMatch =>
        { s with noMatchCount := s.noMatchCount + 1
                 errors := s.errors ++ [f.field ++ ": " ++ f.reason] }
    | .statusNotFound => s
  if f.status = FieldStatus.statusNotFound then s
  else { s with totalChecked := s.totalChecked + 1 }

/-- The whole counting loop of `processValidationResults`. -/
def tally (fields : List ValidationField) : TallyState :=
  fields.foldl tallyStep ⟨0, 0, 0, 0, []⟩

/-- `Math.ceil(n * 0.7)` for a natural `n`, in exact arithmetic:
`⌈7n/10⌉ = (7n + 9) / 10` (natural division). -/
def ceilSeventyPercent (n : Nat) : Nat := (7 * n + 9) / 10

/-- The generic error message pushed when failure comes from the threshold
rather than an explicit `no_match`. -/
def insufficientMatchesMsg : String :=
  "Insufficient matches found between form data and PDF content"

/-- `fields.reduce((sum, f) => sum + (f.confidence ?? 0), 0)`. -/
def sumConfidence (fields : List ValidationField) : ℚ :=
  fields.foldl (fun s f => s + f.confidence) 0

/-- `processValidationResults` from the trigger task file: tally the
verdicts, derive the overall status (`no_match` short-circuits to `failed`;
all-match with a non-empty check set or reaching the 70% ceiling gives
`validated`; otherwise `failed`, pushing a generic message when no per-field
error was recorded), and assemble the summary, whose `overallConfidence` is
`sum of confidences / Math.max(fields.length, 1)`. -/
def processValidationResults (aiResponse : AIValidationResponse) : ValidationOutcome :=
  let t := tally aiResponse.fields
  let statusAndErrors : String × List String :=
    if t.noMatchCount > 0 then ("failed", t.errors)
    else if t.matchCount = t.totalChecked ∧ t.totalChecked > 0 then ("validated", t.errors)
    else if t.matchCount + t.partialMatchCount ≥ ceilSeventyPercent t.totalChecked then
      ("validated", t.errors)
    else
      ("failed", if t.errors.length = 0 then t.errors ++ [insufficientMatchesMsg] else t.errors)
  { overallStatus := statusAndErrors.1
    processedResults :=
      { fields := aiResponse.fields
        summary :=
          { totalChecked := t.totalChecked
            matchCount := t.matchCount
            partialMatchCount := t.partialMatchCount
            noMatchCount := t.noMatchCount
            overallConfidence :=
              sumConfidence aiResponse.fields / ((max aiResponse.fields.length 1 : Nat) : ℚ) } }
    errors := statusAndErrors.2 }

/-! Specification-side views of the loop, used to state and prove the
claims: the loop's counters are `countP`s and its error list is a
filter-map, in input order. -/

/-- Boolean test for status `match`. -/
def statusIsMatch (f : ValidationField) : Bool := f.status = FieldStatus.statusMatch

/-- Boolean test for status `partial_match`. -/
def statusIsPartial (f : ValidationField) : Bool := f.status = FieldStatus.statusPartialMatch

/-- Boolean test for status `no_match`. -/
def statusIsNoMatch (f : ValidationField) : Bool := f.status = FieldStatus.statusNoMatch

/-- Boolean test for a checked field (status other than `not_found`). -/
def statusIsChecked (f : ValidationField) : Bool := ¬ f.status = FieldStatus.statusNotFound

/-- The error entries contributed by the loop: one `"<field>: <reason>"`
per `no_match` field, in input order. -/
def noMatchErrors (fields : List ValidationField) : List String :=
  (fields.filter statusIsNoMatch).map (fun f => f.field ++ ": " ++ f.reason)

theorem tally_loop (fields : List ValidationField) (s : TallyState) :
    fields.foldl tallyStep s =
      ⟨s.matchCount + fields.countP statusIsMatch,
       s.partialMatchCount + fields.countP statusIsPartial,
       s.noMatchCount + fields.countP statusIsNoMatch,
       s.totalChecked + fields.countP statusIsChecked,
       s.errors ++ noMatchErrors fields⟩ := by
  induction fields generalizing s with
  | nil => simp [noMatchErrors]
  | cons f rest ih =>
      rw [List.foldl_cons, ih]
      rcases hst : f.status with h1 | h2 | h3 | h4 <;>
        simp [tallyStep, hst, noMatchErrors, statusIsMatch, statusIsPartial,
          statusIsNoMatch, statusIsChecked, List.countP_cons, List.filter_cons,
          Nat.add_assoc, Nat.add_comm 1]

theorem tally_eq (fields : List ValidationField) :
    tally fields =
      ⟨fields.countP statusIsMatch, fields.countP statusIsPartial,
       fields.countP statusIsNoMatch, fields.countP statusIsChecked,
       noMatchErrors fields⟩ := by
  simpa using tally_loop fields ⟨0, 0, 0, 0, []⟩

theorem countP_checked_split (fields : List ValidationField) :
    fields.countP statusIsChecked =
      fields.countP statusIsMatch + fields.countP statusIsPartial
        + fields.countP statusIsNoMatch := by
  induction fields with
  | nil => rfl
  | cons f rest ih =>
      rcases hst : f.status with h1 | h2 | h3 | h4 <;>
        simp [List.countP_cons, statusIsMatch, statusIsPartial, statusIsNoMatch,
          statusIsChecked, hst, ih] <;> omega

theorem length_noMatchErrors (fields : List ValidationField) :
    (noMatchErrors fields).length = fields.countP statusIsNoMatch := by
  simp [noMatchErrors, List.countP_eq_length_filter]

/-- Closed form of `processValidationResults`: the loop counters are
`countP`s and the error list is the in-order list of `no_match` entries. -/
theorem processValidationResults_unfold (resp : AIValidationResponse) :
    processValidationResults resp =
      { overallStatus :=
          if 0 < resp.fields.countP statusIsNoMatch then "failed"
          else if resp.fields.countP statusIsMatch = resp.fields.countP statusIsChecked
              ∧ 0 < resp.fields.countP statusIsChecked then "validated"
          else if resp.fields.countP statusIsMatch + resp.fields.countP statusIsPartial
              ≥ ceilSeventyPercent (resp.fields.countP statusIsChecked) then "validated"
          else "failed"
        processedResults :=
          { fields := resp.fields
            summary :=
              { totalChecked := resp.fields.countP statusIsChecked
                matchCount := resp.fields.countP statusIsMatch
                partialMatchCount := resp.fields.countP statusIsPartial
                noMatchCount := resp.fields.countP statusIsNoMatch
                overallConfidence :=
                  sumConfidence resp.fields / ((max resp.fields.length 1 : Nat) : ℚ) } }
        errors :=
          if 0 < resp.fields.countP statusIsNoMatch then noMatchErrors resp.fields
          else if resp.fields.countP statusIsMatch = resp.fields.countP statusIsChecked
              ∧ 0 < resp.fields.countP statusIsChecked then noMatchErrors resp.fields
          else if resp.fields.countP statusIsMatch + resp.fields.countP statusIsPartial
              ≥ ceilSeventyPercent (resp.fields.countP statusIsChecked) then
            noMatchErrors resp.fields
          else if (noMatchErrors resp.fields).length = 0 then
            noMatchErrors resp.fields ++ [insufficientMatchesMsg]
          else noMatchErrors resp.fields } := by
  simp only [processValidationResults, tally_eq]
  split_ifs <;> rfl

theorem overallStatus_unfold (resp : AIValidationResponse) :
    (processValidationResults resp).overallStatus =
      (if 0 < resp.fields.countP statusIsNoMatch then "failed"
       else if resp.fields.countP statusIsMatch = resp.fields.countP statusIsChecked
           ∧ 0 < resp.fields.countP statusIsChecked then "validated"
       else if resp.fields.countP statusIsMatch + resp.fields.countP statusIsPartial
           ≥ ceilSeventyPercent (resp.fields.countP statusIsChecked) then "validated"
       else "failed") := by
  rw [processValidationResults_unfold]

theorem errors_unfold (resp : AIValidationResponse) :
    (processValidationResults resp).errors =
      (if 0 < resp.fields.countP statusIsNoMatch then noMatchErrors resp.fields
       else if resp.fields.countP statusIsMatch = resp.fields.countP statusIsChecked
           ∧ 0 < resp.fields.countP statusIsChecked then noMatchErrors resp.fields
       else if resp.fields.countP statusIsMatch + resp.fields.countP statusIsPartial
           ≥ ceilSeventyPercent (resp.fields.countP statusIsChecked) then
         noMatchErrors resp.fields
       else if (noMatchErrors resp.fields).length = 0 then
         noMatchErrors resp.fields ++ [insufficientMatchesMsg]
       else noMatchErrors resp.fields) := by
  rw [processValidationResults_unfold]

theorem summary_matchCount (resp : AIValidationResponse) :
    (processValidationResults resp).processedResults.summary.matchCount =
      resp.fields.countP statusIsMatch := by
  rw [processValidationResults_unfold]

theorem summary_partialMatchCount (resp : AIValidationResponse) :
    (processValidationResults resp).processedResults.summary.partialMatchCount =
      resp.fields.countP statusIsPartial := by
  rw [processValidationResults_unfold]

theorem summary_totalChecked (resp : AIValidationResponse) :
    (processValidationResults resp).processedResults.summary.totalChecked =
      resp.fields.countP statusIsChecked := by
  rw [processValidationResults_unfold]

/-- A reply in which the single field has status `not_found`. -/
def allNotFoundResp : AIValidationResponse :=
  ⟨[⟨"phone", FieldStatus.statusNotFound, 0, "Could not find a phone number in the CV", none⟩]⟩

/-- C1 counterexample: on an all-`not_found` verdict list the code returns
overall outcome "validated" with an empty error list (with
`totalChecked = 0` the threshold test `0 ≥ Math.ceil(0 × 0.7) = 0`
succeeds), not outcome "failed" with the insufficient-matches message as
the claim states. -/
theorem C1_counterexample :
    (processValidationResults allNotFoundResp).processedResults.summary.totalChecked = 0
    ∧ (processValidationResults allNotFoundResp).overallStatus = "validated"
    ∧ ¬ (processValidationResults allNotFoundResp).overallStatus = "failed"
    ∧ (processValidationResults allNotFoundResp).errors = []
    ∧ ¬ (processValidationResults allNotFoundResp).errors = [insufficientMatchesMsg] := by
  decide

/-- C1 (amended): for an input verdict list in which every field's status
is `not_found`, `processValidationResults` returns
`summary.totalChecked = 0`, overall outcome "validated" (the 70% threshold
`0 ≥ ⌈0 × 0.7⌉ = 0` is met vacuously), and an empty error list. -/
theorem C1_all_not_found (resp : AIValidationResponse)
    (h : ∀ f ∈ resp.fields, f.status = FieldStatus.statusNotFound) :
    (processValidationResults resp).processedResults.summary.totalChecked = 0
    ∧ (processValidationResults resp).overallStatus = "validated"
    ∧ (processValidationResults resp).errors = [] := by
  have hcc : resp.fields.countP statusIsChecked = 0 := by
    rw [List.countP_eq_zero]
    intro f hf
    simp [statusIsChecked, h f hf]
  have hcn : resp.fields.countP statusIsNoMatch = 0 := by
    rw [List.countP_eq_zero]
    intro f hf
    simp [statusIsNoMatch, h f hf]
  have hcm : resp.fields.countP statusIsMatch = 0 := by
    rw [List.countP_eq_zero]
    intro f hf
    simp [statusIsMatch, h f hf]
  have herr : (noMatchErrors resp.fields).length = 0 := by
    rw [length_noMatchErrors, hcn]
  rw [processValidationResults_unfold]
  simp [hcc, hcn, hcm, ceilSeventyPercent, List.length_eq_zero.mp herr]

/-- C1 witness: the amended claim instantiated on a concrete
all-`not_found` reply. -/
theorem C1_witness :
    (∀ f ∈ allNotFoundResp.fields, f.status = FieldStatus.statusNotFound)
    ∧ ((processValidationResults allNotFoundResp).processedResults.summary.totalChecked = 0
      ∧ (processValidationResults allNotFoundResp).overallStatus = "validated"
      ∧ (processValidationResults allNotFoundResp).errors = []) :=
  ⟨by decide, C1_all_not_found allNotFoundResp (by decide)⟩

/-- A verdict field with the given name and status. -/
def mkField (name : String) (st : FieldStatus) : ValidationField :=
  ⟨name, st, 9/10, "checked against the document", none⟩

/-- Ten checked fields: seven `match` and three `partial_match`. -/
def exampleTen : AIValidationResponse :=
  ⟨List.replicate 7 (mkField "fullName" FieldStatus.statusMatch)
    ++ List.replicate 3 (mkField "skills" FieldStatus.statusPartialMatch)⟩

/-- C2: the overall outcome is "failed" if any field is `no_match`;
otherwise "validated" iff every checked (non-`not_found`) field is a
`match` or `matchCount + partialMatchCount ≥ ⌈totalChecked × 0.7⌉`, and
"failed" otherwise; in particular ten checked fields with seven `match`
and three `partial_match` validate. -/
theorem C2_overall_outcome_policy :
    (∀ resp : AIValidationResponse,
      (processValidationResults resp).overallStatus =
        if ∃ f ∈ resp.fields, f.status = FieldStatus.statusNoMatch then "failed"
        else if (∀ f ∈ resp.fields,
                f.status ≠ FieldStatus.statusNotFound → f.status = FieldStatus.statusMatch)
            ∨ (processValidationResults resp).processedResults.summary.matchCount
                + (processValidationResults resp).processedResults.summary.partialMatchCount
              ≥ ceilSeventyPercent
                  (processValidationResults resp).processedResults.summary.totalChecked
          then "validated" else "failed")
    ∧ (processValidationResults exampleTen).overallStatus = "validated" := by
  constructor
  · intro resp
    rw [overallStatus_unfold, summary_matchCount, summary_partialMatchCount,
      summary_totalChecked]
    by_cases hnm : ∃ f ∈ resp.fields, f.status = FieldStatus.statusNoMatch
    · have h1 : 0 < resp.fields.countP statusIsNoMatch := by
        rw [List.countP_pos_iff]
        obtain ⟨f, hf, hst⟩ := hnm
        exact ⟨f, hf, by simp [statusIsNoMatch, hst]⟩
      rw [if_pos h1, if_pos hnm]
    · have h0 : resp.fields.countP statusIsNoMatch = 0 := by
        rw [List.countP_eq_zero]
        intro f hf hc
        exact hnm ⟨f, hf, by simpa [statusIsNoMatch] using hc⟩
      have hsplit := countP_checked_split resp.fields
      rw [if_neg (by omega : ¬ 0 < resp.fields.countP statusIsNoMatch), if_neg hnm]
      by_cases hall : ∀ f ∈ resp.fields,
          f.status ≠ FieldStatus.statusNotFound → f.status = FieldStatus.statusMatch
      · have hp0 : resp.fields.countP statusIsPartial = 0 := by
          rw [List.countP_eq_zero]
          intro f hf hc
          have hpm : f.status = FieldStatus.statusPartialMatch := by
            simpa [statusIsPartial] using hc
          have := hall f hf (by simp [hpm])
          simp [hpm] at this
        have hcmcc : resp.fields.countP statusIsMatch = resp.fields.countP statusIsChecked := by
          omega
        by_cases hpos : 0 < resp.fields.countP statusIsChecked
        · rw [if_pos ⟨hcmcc, hpos⟩, if_pos (Or.inl hall)]
        · have hccz : resp.fields.countP statusIsChecked = 0 := by omega
          have hthr : resp.fields.countP statusIsMatch + resp.fields.countP statusIsPartial
              ≥ ceilSeventyPercent (resp.fields.countP statusIsChecked) := by
            rw [hccz]
            exact Nat.zero_le _
          rw [if_neg (fun hc => hpos hc.2), if_pos hthr, if_pos (Or.inl hall)]
      · have hex : ∃ f ∈ resp.fields,
            f.status ≠ FieldStatus.statusNotFound ∧ f.status ≠ FieldStatus.statusMatch := by
          push_neg at hall
          exact hall
        have hppos : 0 < resp.fields.countP statusIsPartial := by
          rw [List.countP_pos_iff]
          obtain ⟨f, hf, hnf, hm⟩ := hex
          refine ⟨f, hf, ?_⟩
          have hnn : f.status ≠ FieldStatus.statusNoMatch := by
            intro hc
            have := List.countP_eq_zero.mp h0 f hf
            simp [statusIsNoMatch, hc] at this
          rcases hst : f.status with h | h | h | h <;>
            simp_all [statusIsPartial]
        have hne : ¬ (resp.fields.countP statusIsMatch = resp.fields.countP statusIsChecked
            ∧ 0 < resp.fields.countP statusIsChecked) := by
          omega
        rw [if_neg hne]
        by_cases hthr : resp.fields.countP statusIsMatch + resp.fields.countP statusIsPartial
            ≥ ceilSeventyPercent (resp.fields.countP statusIsChecked)
        · rw [if_pos hthr, if_pos (Or.inr hthr)]
        · rw [if_neg hthr, if_neg (fun hc => hc.elim hall hthr)]
  · decide

/-- C3: if at least one field has status `no_match`, the outcome is
"failed" and the error list is exactly one `"<field>: <reason>"` entry per
`no_match` field, in input order. -/
theorem C3_no_match_errors (resp : AIValidationResponse)
    (h : ∃ f ∈ resp.fields, f.status = FieldStatus.statusNoMatch) :
    (processValidationResults resp).overallStatus = "failed"
    ∧ (processValidationResults resp).errors =
        (resp.fields.filter statusIsNoMatch).map (fun f => f.field ++ ": " ++ f.reason) := by
  have h1 : 0 < resp.fields.countP statusIsNoMatch := by
    rw [List.countP_pos_iff]
    obtain ⟨f, hf, hst⟩ := h
    exact ⟨f, hf, by simp [statusIsNoMatch, hst]⟩
  rw [processValidationResults_unfold]
  simp [h1, noMatchErrors]

/-- C3 witness: a concrete reply with one `no_match` field among others. -/
theorem C3_witness :
    (∃ f ∈ (⟨[mkField "fullName" FieldStatus.statusMatch,
              mkField "email" FieldStatus.statusNoMatch]⟩ : AIValidationResponse).fields,
        f.status = FieldStatus.statusNoMatch)
    ∧ ((processValidationResults
          ⟨[mkField "fullName" FieldStatus.statusMatch,
            mkField "email" FieldStatus.statusNoMatch]⟩).overallStatus = "failed"
      ∧ (processValidationResults
          ⟨[mkField "fullName" FieldStatus.statusMatch,
            mkField "email" FieldStatus.statusNoMatch]⟩).errors =
          ((⟨[mkField "fullName" FieldStatus.statusMatch,
              mkField "email" FieldStatus.statusNoMatch]⟩ :
              AIValidationResponse).fields.filter statusIsNoMatch).map
            (fun f => f.field ++ ": " ++ f.reason)) :=
  ⟨by decide,
    C3_no_match_errors
      ⟨[mkField "fullName" FieldStatus.statusMatch,
        mkField "email" FieldStatus.statusNoMatch]⟩ (by decide)⟩

/-- C4: whenever `processValidationResults` returns outcome "failed" the
error list is non-empty: each `no_match` field contributed an entry, and a
threshold failure with no recorded entry appends the generic
insufficient-matches message. -/
theorem C4_failed_implies_errors (resp : AIValidationResponse)
    (h : (processValidationResults resp).overallStatus = "failed") :
    (processValidationResults resp).errors ≠ [] := by
  rw [overallStatus_unfold] at h
  rw [errors_unfold]
  by_cases h1 : 0 < resp.fields.countP statusIsNoMatch
  · have hlen : (noMatchErrors resp.fields).length = resp.fields.countP statusIsNoMatch :=
      length_noMatchErrors resp.fields
    rw [if_pos h1]
    intro hnil
    rw [hnil] at hlen
    simp at hlen
    omega
  · rw [if_neg h1] at h ⊢
    by_cases h2 : resp.fields.countP statusIsMatch = resp.fields.countP statusIsChecked
        ∧ 0 < resp.fields.countP statusIsChecked
    · rw [if_pos h2] at h
      exact absurd h (by decide)
    · rw [if_neg h2] at h ⊢
      by_cases h3 : resp.fields.countP statusIsMatch + resp.fields.countP statusIsPartial
          ≥ ceilSeventyPercent (resp.fields.countP statusIsChecked)
      · rw [if_pos h3] at h
        exact absurd h (by decide)
      · rw [if_neg h3]
        by_cases h4 : (noMatchErrors resp.fields).length = 0
        · rw [if_pos h4]
          simp
        · rw [if_neg h4]
          intro hnil
          rw [hnil] at h4
          simp at h4

/-- C4 witness: a concrete failed reply yields a non-empty error list. -/
theorem C4_witness :
    (processValidationResults
        ⟨[mkField "experience" FieldStatus.statusNoMatch]⟩).overallStatus = "failed"
    ∧ (processValidationResults
        ⟨[mkField "experience" FieldStatus.statusNoMatch]⟩).errors ≠ [] :=
  ⟨by decide,
    C4_failed_implies_errors
      ⟨[mkField "experience" FieldStatus.statusNoMatch]⟩ (by decide)⟩

theorem sumConfidence_loop (fields : List ValidationField) (a : ℚ) :
    fields.foldl (fun s f => s + f.confidence) a =
      a + (fields.map ValidationField.confidence).sum := by
  induction fields generalizing a with
  | nil => simp
  | cons f rest ih =>
      rw [List.foldl_cons, ih]
      simp [add_assoc]

theorem sumConfidence_eq (fields : List ValidationField) :
    sumConfidence fields = (fields.map ValidationField.confidence).sum := by
  simpa [sumConfidence] using sumConfidence_loop fields 0

/-- Three verdicts with confidences 0.9, 0.8, 1.0. -/
def exampleThreeConfidences : AIValidationResponse :=
  ⟨[⟨"fullName", FieldStatus.statusMatch, 9/10, "exact match", none⟩,
    ⟨"email", FieldStatus.statusMatch, 8/10, "exact match", none⟩,
    ⟨"phone", FieldStatus.statusMatch, 1, "exact match", none⟩]⟩

/-- C5: `summary.overallConfidence` is the arithmetic mean of all the
verdicts' confidence values (`not_found` verdicts included), 0 for the
empty list, and 0.9 for confidences [0.9, 0.8, 1.0]. -/
theorem C5_overall_confidence :
    (∀ resp : AIValidationResponse, resp.fields ≠ [] →
      (processValidationResults resp).processedResults.summary.overallConfidence =
        (resp.fields.map ValidationField.confidence).sum / (resp.fields.length : ℚ))
    ∧ (processValidationResults ⟨[]⟩).processedResults.summary.overallConfidence = 0
    ∧ (processValidationResults
        exampleThreeConfidences).processedResults.summary.overallConfidence = 9/10 := by
  refine ⟨?_, ?_, ?_⟩
  · intro resp hne
    rw [processValidationResults_unfold]
    have hlen : 0 < resp.fields.length := List.length_pos.mpr hne
    show sumConfidence resp.fields / ((max resp.fields.length 1 : Nat) : ℚ) = _
    rw [sumConfidence_eq, max_eq_left hlen]
  · rw [processValidationResults_unfold]
    show sumConfidence [] / ((max (0:Nat) 1 : Nat) : ℚ) = 0
    simp [sumConfidence]
  · rw [processValidationResults_unfold]
    show sumConfidence exampleThreeConfidences.fields
        / ((max exampleThreeConfidences.fields.length 1 : Nat) : ℚ) = 9/10
    norm_num [sumConfidence, exampleThreeConfidences]

/-- C5 witness: the mean-formula clause instantiated on the three-verdict
example. -/
theorem C5_witness :
    exampleThreeConfidences.fields ≠ []
    ∧ (processValidationResults
          exampleThreeConfidences).processedResults.summary.overallConfidence =
        (exampleThreeConfidences.fields.map ValidationField.confidence).sum
          / (exampleThreeConfidences.fields.length : ℚ) :=
  ⟨by simp [exampleThreeConfidences],
    C5_overall_confidence.1 exampleThreeConfidences (by simp [exampleThreeConfidences])⟩

/-! Model-reply normalization (`validateCvDataTask`, before `JSON.parse`):
`aiResponse.trim()`, then if the trimmed reply starts with a triple-backtick
fence (optionally tagged `json`) the leading fence with its trailing
whitespace and the trailing fence with its leading whitespace are removed.
Strings are modelled as `List Char`. -/

/-- `s.trim()`: drop whitespace at both ends. -/
def trimChars (l : List Char) : List Char :=
  ((l.dropWhile Char.isWhitespace).reverse.dropWhile Char.isWhitespace).reverse

/-- `.replace(/\s*` + three backticks + `$/, '')`: if the text ends with a
triple-backtick fence, remove it together with the whitespace immediately
before it; otherwise leave the text unchanged. -/
def dropTrailingFence (l : List Char) : List Char :=
  if ("```".toList.reverse).isPrefixOf l.reverse then
    ((l.reverse.drop 3).dropWhile Char.isWhitespace).reverse
  else l

/-- The cleaning applied to the model reply before `JSON.parse`: trim, then
strip a leading fence tagged `json` (or an untagged one) with its trailing
whitespace, then strip the trailing fence. With no leading fence the
trimmed reply is passed through unchanged. -/
def cleanAiResponse (l : List Char) : List Char :=
  let t := trimChars l
  if ("```json".toList).isPrefixOf t then
    dropTrailingFence ((t.drop 7).dropWhile Char.isWhitespace)
  else if ("```".toList).isPrefixOf t then
    dropTrailingFence ((t.drop 3).dropWhile Char.isWhitespace)
  else t

/-- A reply wrapped in a fence tagged `json`. -/
def wrapJsonFence (x : List Char) : List Char :=
  "```json\n".toList ++ x ++ "\n```".toList

/-- A reply wrapped in an untagged fence. -/
def wrapBareFence (x : List Char) : List Char :=
  "```\n".toList ++ x ++ "\n```".toList

theorem dropWhile_of_headI (l : List Char) (hne : l ≠ [])
    (hhd : l.headI.isWhitespace = false) :
    l.dropWhile Char.isWhitespace = l := by
  cases l with
  | nil => simp at hne
  | cons a t =>
      simp only [List.headI] at hhd
      simp [List.dropWhile_cons, hhd]

theorem trimChars_eq_self (l : List Char) (hne : l ≠ [])
    (hhd : l.headI.isWhitespace = false)
    (hlast : l.reverse.headI.isWhitespace = false) :
    trimChars l = l := by
  have hr : l.reverse ≠ [] := by simpa using hne
  rw [trimChars, dropWhile_of_headI l hne hhd, dropWhile_of_headI l.reverse hr hlast,
    List.reverse_reverse]

theorem headI_append (x y : List Char) (hne : x ≠ []) : (x ++ y).headI = x.headI := by
  cases x with
  | nil => simp at hne
  | cons a t => simp

theorem append_fence_ne_nil (x : List Char) : x ++ "\n```".toList ≠ [] := by
  intro hc
  have hlen := congrArg List.length hc
  simp at hlen

theorem dropWhile_newline_wrap (x : List Char) (hne : x ≠ [])
    (hhd : x.headI.isWhitespace = false) :
    ('\n' :: (x ++ "\n```".toList)).dropWhile Char.isWhitespace = x ++ "\n```".toList := by
  rw [List.dropWhile_cons]
  have hws : ('\n' : Char).isWhitespace = true := by decide
  rw [hws]
  simp only [if_true]
  apply dropWhile_of_headI
  · exact append_fence_ne_nil x
  · rw [headI_append x _ hne]
    exact hhd

theorem dropTrailingFence_wrap (x : List Char) (hne : x ≠ [])
    (hlast : x.reverse.headI.isWhitespace = false) :
    dropTrailingFence (x ++ "\n```".toList) = x := by
  have hrev : (x ++ "\n```".toList).reverse =
      "```".toList.reverse ++ ('\n' :: x.reverse) := by
    rw [List.reverse_append]
    rw [show "\n```".toList.reverse = "```".toList.reverse ++ ['\n'] from by decide]
    rw [List.append_assoc]
    rfl
  have hpre : ("```".toList.reverse).isPrefixOf (x ++ "\n```".toList).reverse = true := by
    rw [hrev]
    exact List.isPrefixOf_iff_prefix.mpr (List.prefix_append _ _)
  rw [dropTrailingFence, if_pos hpre, hrev]
  rw [show (3 : Nat) = ("```".toList.reverse).length from by decide, List.drop_left]
  rw [List.dropWhile_cons]
  have hws : ('\n' : Char).isWhitespace = true := by decide
  rw [hws]
  simp only [if_true]
  rw [dropWhile_of_headI x.reverse (by simpa using hne) hlast, List.reverse_reverse]

theorem wrapJsonFence_shape (x : List Char) :
    wrapJsonFence x = "```json".toList ++ ('\n' :: (x ++ "\n```".toList)) := by
  rw [wrapJsonFence, show "```json\n".toList = "```json".toList ++ ['\n'] from by decide,
    List.append_assoc]
  rfl

theorem wrapBareFence_shape (x : List Char) :
    wrapBareFence x = "```".toList ++ ('\n' :: (x ++ "\n```".toList)) := by
  rw [wrapBareFence, show "```\n".toList = "```".toList ++ ['\n'] from by decide,
    List.append_assoc]
  rfl

theorem wrapJson_cons (x : List Char) :
    wrapJsonFence x = Char.ofNat 96 :: ("``json\n".toList ++ x ++ "\n```".toList) := by
  rw [wrapJsonFence, show "```json\n".toList = Char.ofNat 96 :: "``json\n".toList from by decide]
  rfl

theorem wrapJson_rev_cons (x : List Char) :
    (wrapJsonFence x).reverse =
      Char.ofNat 96 :: ("``\n".toList ++ (x.reverse ++ "```json\n".toList.reverse)) := by
  rw [wrapJsonFence, List.reverse_append, List.reverse_append,
    show "\n```".toList.reverse = Char.ofNat 96 :: "``\n".toList from by decide]
  rfl

theorem wrapBare_cons (x : List Char) :
    wrapBareFence x = Char.ofNat 96 :: ("``\n".toList ++ x ++ "\n```".toList) := by
  rw [wrapBareFence, show "```\n".toList = Char.ofNat 96 :: "``\n".toList from by decide]
  rfl

theorem wrapBare_rev_cons (x : List Char) :
    (wrapBareFence x).reverse =
      Char.ofNat 96 :: ("``\n".toList ++ (x.reverse ++ "```\n".toList.reverse)) := by
  rw [wrapBareFence, List.reverse_append, List.reverse_append,
    show "\n```".toList.reverse = Char.ofNat 96 :: "``\n".toList from by decide]
  rfl

theorem trimChars_wrapJson (x : List Char) : trimChars (wrapJsonFence x) = wrapJsonFence x := by
  have h1 : (wrapJsonFence x).dropWhile Char.isWhitespace = wrapJsonFence x := by
    rw [wrapJson_cons]
    exact dropWhile_of_headI _ (List.cons_ne_nil _ _)
      (by show (Char.ofNat 96).isWhitespace = false; decide)
  have h2 : (wrapJsonFence x).reverse.dropWhile Char.isWhitespace = (wrapJsonFence x).reverse := by
    rw [wrapJson_rev_cons]
    exact dropWhile_of_headI _ (List.cons_ne_nil _ _)
      (by show (Char.ofNat 96).isWhitespace = false; decide)
  rw [trimChars, h1, h2, List.reverse_reverse]

theorem trimChars_wrapBare (x : List Char) : trimChars (wrapBareFence x) = wrapBareFence x := by
  have h1 : (wrapBareFence x).dropWhile Char.isWhitespace = wrapBareFence x := by
    rw [wrapBare_cons]
    exact dropWhile_of_headI _ (List.cons_ne_nil _ _)
      (by show (Char.ofNat 96).isWhitespace = false; decide)
  have h2 : (wrapBareFence x).reverse.dropWhile Char.isWhitespace = (wrapBareFence x).reverse := by
    rw [wrapBare_rev_cons]
    exact dropWhile_of_headI _ (List.cons_ne_nil _ _)
      (by show (Char.ofNat 96).isWhitespace = false; decide)
  rw [trimChars, h1, h2, List.reverse_reverse]

theorem wrapBare_cons4 (x : List Char) :
    wrapBareFence x =
      Char.ofNat 96 :: Char.ofNat 96 :: Char.ofNat 96 :: '\n' :: (x ++ "\n```".toList) := by
  rw [wrapBareFence,
    show "```\n".toList =
      Char.ofNat 96 :: Char.ofNat 96 :: Char.ofNat 96 :: '\n' :: ([] : List Char) from by decide]
  rfl

/-- C6: the normalization applied before parsing maps a reply wrapped in a
triple-backtick fence (tagged `json` or untagged) to the same cleaned text
as the unwrapped reply, which it passes through unchanged — so both parse
identically. Hypotheses: the reply text is non-empty, has no surrounding
whitespace (it is its own trim) and does not itself start with a fence,
which holds of every JSON value text. -/
theorem C6_fence_stripping (x : List Char) (hne : x ≠ [])
    (hhd : x.headI.isWhitespace = false)
    (hlast : x.reverse.headI.isWhitespace = false)
    (hpre : ("```".toList).isPrefixOf x = false) :
    cleanAiResponse (wrapJsonFence x) = cleanAiResponse x
    ∧ cleanAiResponse (wrapBareFence x) = cleanAiResponse x
    ∧ cleanAiResponse x = x := by
  have htrim : trimChars x = x := trimChars_eq_self x hne hhd hlast
  have hjx : ("```json".toList).isPrefixOf x = false := by
    cases hj : ("```json".toList).isPrefixOf x
    · rfl
    · exfalso
      have h1 : "```json".toList <+: x := List.isPrefixOf_iff_prefix.mp hj
      have h2 : "```".toList <+: "```json".toList := ⟨"json".toList, by decide⟩
      have h3 : ("```".toList).isPrefixOf x = true :=
        List.isPrefixOf_iff_prefix.mpr (h2.trans h1)
      rw [hpre] at h3
      exact Bool.false_ne_true h3
  have hx : cleanAiResponse x = x := by
    rw [cleanAiResponse]
    simp only [htrim, hjx, hpre, Bool.false_eq_true, if_false]
  have hwj : cleanAiResponse (wrapJsonFence x) = x := by
    rw [cleanAiResponse]
    simp only [trimChars_wrapJson]
    have hc1 : ("```json".toList).isPrefixOf (wrapJsonFence x) = true := by
      rw [wrapJsonFence_shape]
      exact List.isPrefixOf_iff_prefix.mpr (List.prefix_append _ _)
    rw [hc1]
    simp only [if_true]
    rw [wrapJsonFence_shape, show (7 : Nat) = ("```json".toList).length from by decide,
      List.drop_left, dropWhile_newline_wrap x hne hhd]
    exact dropTrailingFence_wrap x hne hlast
  have hwb : cleanAiResponse (wrapBareFence x) = x := by
    rw [cleanAiResponse]
    simp only [trimChars_wrapBare]
    have hc1 : ("```json".toList).isPrefixOf (wrapBareFence x) = false := by
      rw [wrapBare_cons4,
        show "```json".toList =
          Char.ofNat 96 :: Char.ofNat 96 :: Char.ofNat 96
            :: 'j' :: 's' :: 'o' :: 'n' :: ([] : List Char) from by decide]
      simp [List.isPrefixOf, show (('j' : Char) == '\n') = false from by decide]
    have hc2 : ("```".toList).isPrefixOf (wrapBareFence x) = true := by
      rw [wrapBareFence_shape]
      exact List.isPrefixOf_iff_prefix.mpr (List.prefix_append _ _)
    rw [hc1, hc2]
    simp only [Bool.false_eq_true, if_false, if_true]
    rw [wrapBareFence_shape, show (3 : Nat) = ("```".toList).length from by decide,
      List.drop_left, dropWhile_newline_wrap x hne hhd]
    exact dropTrailingFence_wrap x hne hlast
  exact ⟨hwj.trans hx.symm, hwb.trans hx.symm, hx⟩

/-- C6 witness: a concrete JSON object text, fenced and unfenced. -/
theorem C6_witness :
    "\x7b\"name\": \"Jane\"\x7d".toList ≠ []
    ∧ cleanAiResponse (wrapJsonFence "\x7b\"name\": \"Jane\"\x7d".toList)
        = cleanAiResponse "\x7b\"name\": \"Jane\"\x7d".toList
    ∧ cleanAiResponse (wrapBareFence "\x7b\"name\": \"Jane\"\x7d".toList)
        = cleanAiResponse "\x7b\"name\": \"Jane\"\x7d".toList :=
  ⟨by decide,
    (C6_fence_stripping "\x7b\"name\": \"Jane\"\x7d".toList
      (by decide) (by decide) (by decide) (by decide)).1,
    (C6_fence_stripping "\x7b\"name\": \"Jane\"\x7d".toList
      (by decide) (by decide) (by decide) (by decide)).2.1⟩

/-! The `validateCvDataTask` pipeline around the aggregation: payload
parsing, the `validating` status update, document fetch, model call, reply
parse, result write-back, and the single catch handler. Database writes
are modelled as pure updates of the owning record; the outcome of the
fallible stages is supplied as a `PipelineOutcome` value. -/

/-- The CV record columns the validation task reads or writes. -/
structure CVRecord where
  validationStatus : String
  validationResults : Option ProcessedValidationResults
  validationErrors : List String
deriving DecidableEq, Repr

/-- Where the pipeline run first deviates, if anywhere:
`payloadError` = `CVValidationPayload.parse` throws (before the
`validating` update); `fetchError` = document download fails on both the
public-URL and the authenticated paths; `modelError` = the chat-completion
call is not ok or returns no content; `malformedReply` = `JSON.parse` of
the cleaned reply throws; `modelReply` = every stage succeeded with the
given parsed verdict list. -/
inductive PipelineOutcome where
  | payloadError (msg : String)
  | fetchError (msg : String)
  | modelError (msg : String)
  | malformedReply (msg : String)
  | modelReply (resp : AIValidationResponse)
deriving DecidableEq, Repr

/-- The value returned by a successful task run. -/
structure TaskResult where
  success : Bool
  status : String
  errors : List String
deriving DecidableEq, Repr

/-- The catch handler's database write: force status `failed` with the
raised error's message as the sole error entry (`validationResults` is not
touched there). -/
def failRecord (rec : CVRecord) (msg : String) : CVRecord :=
  { rec with validationStatus := "failed", validationErrors := [msg] }

/-- The error message of a failing outcome, `none` on success. -/
def outcomeErrMsg : PipelineOutcome → Option String
  | .payloadError m => some m
  | .fetchError m => some m
  | .modelError m => some m
  | .malformedReply m => some m
  | .modelReply _ => none

/-- One run of `validateCvDataTask` over the owning record: on success the
record gets the aggregated status, results and errors; on any throw the
single catch handler writes `failed` with the error message as sole entry
(guarded by `if (payload?.cvId)`, i.e. only for a truthy, non-empty
`cvId`) and rethrows, so the error propagates as the task's result —
the task body contains no retry. A `payloadError` throws before the
`validating` update; the later errors throw after it. -/
def runValidateCvTask (rec : CVRecord) (cvId : String) (ev : PipelineOutcome) :
    CVRecord × Except String TaskResult :=
  match ev with
  | .payloadError m =>
      (if cvId ≠ "" then failRecord rec m else rec, Except.error m)
  | .fetchError m =>
      (if cvId ≠ "" then failRecord { rec with validationStatus := "validating" } m
       else { rec with validationStatus := "validating" }, Except.error m)
  | .modelError m =>
      (if cvId ≠ "" then failRecord { rec with validationStatus := "validating" } m
       else { rec with validationStatus := "validating" }, Except.error m)
  | .malformedReply m =>
      (if cvId ≠ "" then failRecord { rec with validationStatus := "validating" } m
       else { rec with validationStatus := "validating" }, Except.error m)
  | .modelReply resp =>
      let out := processValidationResults resp
      ({ validationStatus := out.overallStatus,
         validationResults := some out.processedResults,
         validationErrors := out.errors },
       Except.ok ⟨true, out.overallStatus, out.errors⟩)

/-- C7: whenever the pipeline raises after the task begins (payload shape
error, fetch or model-call transport error, malformed reply), the owning
record (with its truthy `cvId`) ends with `validationStatus = "failed"`
and the raised error's message as the sole entry of `validationErrors`,
and the error is rethrown rather than retried: the run's result is that
same error. -/
theorem C7_pipeline_failure (rec : CVRecord) (cvId : String) (ev : PipelineOutcome)
    (m : String) (hm : outcomeErrMsg ev = some m) (hcv : cvId ≠ "") :
    (runValidateCvTask rec cvId ev).1.validationStatus = "failed"
    ∧ (runValidateCvTask rec cvId ev).1.validationErrors = [m]
    ∧ (runValidateCvTask rec cvId ev).2 = Except.error m := by
  cases ev with
  | payloadError w =>
      simp [outcomeErrMsg] at hm
      subst hm
      simp [runValidateCvTask, failRecord, hcv]
  | fetchError w =>
      simp [outcomeErrMsg] at hm
      subst hm
      simp [runValidateCvTask, failRecord, hcv]
  | modelError w =>
      simp [outcomeErrMsg] at hm
      subst hm
      simp [runValidateCvTask, failRecord, hcv]
  | malformedReply w =>
      simp [outcomeErrMsg] at hm
      subst hm
      simp [runValidateCvTask, failRecord, hcv]
  | modelReply resp =>
      simp [outcomeErrMsg] at hm

/-- C7 witness: a transport error on the model call forces a concrete
pending record to `failed` with that message as its only error. -/
theorem C7_witness :
    outcomeErrMsg (PipelineOutcome.modelError "OpenRouter API error: 500 Internal Server Error - upstream")
      = some "OpenRouter API error: 500 Internal Server Error - upstream"
    ∧ ("cv_123" : String) ≠ ""
    ∧ ((runValidateCvTask ⟨"pending", none, []⟩ "cv_123"
          (PipelineOutcome.modelError
            "OpenRouter API error: 500 Internal Server Error - upstream")).1.validationStatus
        = "failed"
      ∧ (runValidateCvTask ⟨"pending", none, []⟩ "cv_123"
          (PipelineOutcome.modelError
            "OpenRouter API error: 500 Internal Server Error - upstream")).1.validationErrors
        = ["OpenRouter API error: 500 Internal Server Error - upstream"]
      ∧ (runValidateCvTask ⟨"pending", none, []⟩ "cv_123"
          (PipelineOutcome.modelError
            "OpenRouter API error: 500 Internal Server Error - upstream")).2
        = Except.error "OpenRouter API error: 500 Internal Server Error - upstream") :=
  ⟨rfl, by decide,
    C7_pipeline_failure ⟨"pending", none, []⟩ "cv_123"
      (PipelineOutcome.modelError
        "OpenRouter API error: 500 Internal Server Error - upstream")
      "OpenRouter API error: 500 Internal Server Error - upstream" rfl (by decide)⟩

/-! `createDocumentValidationPrompt`: a template literal interpolating the
five form-data values; absent optional fields are rendered with
`?? 'Not provided'`. The static template text is split at the five
interpolation points. -/

/-- `CVValidationPayload.formData`: the zod object with required
`fullName`/`email` and optional `phone`/`skills`/`experience`. -/
structure CVFormData where
  fullName : String
  email : String
  phone : Option String
  skills : Option String
  experience : Option String
deriving DecidableEq, Repr

/-- Template text before the interpolated full name. -/
def promptIntro : String :=
  "\nPlease analyze the CV/Resume document (PDF or image) and validate if the following form data matches what you can see in the document.\n\nCRITICAL: Your response must be ONLY the JSON object. Do not include any markdown formatting, code blocks, or explanatory text. Just return the raw JSON.\n\nFORM DATA TO VALIDATE:\n- Full Name: \""

/-- Template text between the full name and the email. -/
def promptAfterFullName : String := "\"\n- Email: \""

/-- Template text between the email and the phone. -/
def promptAfterEmail : String := "\"\n- Phone: \""

/-- Template text between the phone and the skills. -/
def promptAfterPhone : String := "\"\n- Skills: \""

/-- Template text between the skills and the experience. -/
def promptAfterSkills : String := "\"\n- Experience: \""

/-- Template text after the interpolated experience: the per-field
questions, the required JSON reply structure, the status definitions and
the closing instruction. -/
def promptTail : String :=
  "\"\n\nFor each field, determine:\n1. Does the form data match what's visible in the CV document?\n2. How confident are you in this match (0.0 to 1.0)?\n3. What specific value did you find in the CV document (if any)?\n4. Why did you make this determination?\n\nReturn your analysis as a JSON object with this exact structure:\n\x7b\n  \"fields\": [\n    \x7b\n      \"field\": \"fullName\",\n      \"status\": \"match|partial_match|no_match|not_found\",\n      \"confidence\": 0.95,\n      \"reason\": \"Explanation of your reasoning\",\n      \"extractedValue\": \"What you found in the CV document\"\n    \x7d,\n    \x7b\n      \"field\": \"email\",\n      \"status\": \"match|partial_match|no_match|not_found\",\n      \"confidence\": 0.90,\n      \"reason\": \"Explanation of your reasoning\",\n      \"extractedValue\": \"What you found in the CV document\"\n    \x7d,\n    \x7b\n      \"field\": \"phone\",\n      \"status\": \"match|partial_match|no_match|not_found\",\n      \"confidence\": 0.85,\n      \"reason\": \"Explanation of your reasoning\",\n      \"extractedValue\": \"What you found in the CV document\"\n    \x7d,\n    \x7b\n      \"field\": \"skills\",\n      \"status\": \"match|partial_match|no_match|not_found\",\n      \"confidence\": 0.80,\n      \"reason\": \"Explanation of your reasoning\",\n      \"extractedValue\": \"What you found in the CV document\"\n    \x7d,\n    \x7b\n      \"field\": \"experience\",\n      \"status\": \"match|partial_match|no_match|not_found\",\n      \"confidence\": 0.75,\n      \"reason\": \"Explanation of your reasoning\",\n      \"extractedValue\": \"What you found in the CV document\"\n    \x7d\n  ]\n\x7d\n\nStatus definitions:\n- \"match\": Form data exactly or very closely matches what's visible in the CV\n- \"partial_match\": Form data partially matches CV content but has differences\n- \"no_match\": Form data contradicts what's visible in the CV\n- \"not_found\": Could not find this information in the CV document\n\nBe thorough but practical. Consider variations in formatting, abbreviations, and synonyms. Look carefully at all text visible in the CV document, whether it's a PDF or image format.\n"

/-- `createDocumentValidationPrompt`: splice the five form values into the
template; each absent optional field becomes the literal text
"Not provided". Pure string formatting, total on every input. -/
def createDocumentValidationPrompt (formData : CVFormData) : String :=
  promptIntro ++ formData.fullName
    ++ promptAfterFullName ++ formData.email
    ++ promptAfterEmail ++ (formData.phone.getD "Not provided")
    ++ promptAfterPhone ++ (formData.skills.getD "Not provided")
    ++ promptAfterSkills ++ (formData.experience.getD "Not provided")
    ++ promptTail

/-- `v` occurs verbatim inside `s`. -/
def containsSub (s v : String) : Prop := ∃ l r, s = l ++ v ++ r

/-- C8: for every form-data input the prompt contains each submitted field
value, the optional fields appearing through `getD "Not provided"`, so an
absent phone, skills or experience is rendered as the literal text
"Not provided". The builder is a total Lean function: no error
conditions. -/
theorem C8_prompt_contains_values (formData : CVFormData) :
    containsSub (createDocumentValidationPrompt formData) formData.fullName
    ∧ containsSub (createDocumentValidationPrompt formData) formData.email
    ∧ containsSub (createDocumentValidationPrompt formData) (formData.phone.getD "Not provided")
    ∧ containsSub (createDocumentValidationPrompt formData) (formData.skills.getD "Not provided")
    ∧ containsSub (createDocumentValidationPrompt formData)
        (formData.experience.getD "Not provided") := by
  have h1 : containsSub (createDocumentValidationPrompt formData) formData.fullName := by
    refine ⟨promptIntro,
      promptAfterFullName ++ formData.email ++ promptAfterEmail
        ++ (formData.phone.getD "Not provided") ++ promptAfterPhone
        ++ (formData.skills.getD "Not provided") ++ promptAfterSkills
        ++ (formData.experience.getD "Not provided") ++ promptTail, ?_⟩
    simp [createDocumentValidationPrompt, String.append_assoc]
  have h2 : containsSub (createDocumentValidationPrompt formData) formData.email := by
    refine ⟨promptIntro ++ formData.fullName ++ promptAfterFullName,
      promptAfterEmail ++ (formData.phone.getD "Not provided") ++ promptAfterPhone
        ++ (formData.skills.getD "Not provided") ++ promptAfterSkills
        ++ (formData.experience.getD "Not provided") ++ promptTail, ?_⟩
    simp [createDocumentValidationPrompt, String.append_assoc]
  have h3 : containsSub (createDocumentValidationPrompt formData)
      (formData.phone.getD "Not provided") := by
    refine ⟨promptIntro ++ formData.fullName ++ promptAfterFullName ++ formData.email
        ++ promptAfterEmail,
      promptAfterPhone ++ (formData.skills.getD "Not provided") ++ promptAfterSkills
        ++ (formData.experience.getD "Not provided") ++ promptTail, ?_⟩
    simp [createDocumentValidationPrompt, String.append_assoc]
  have h4 : containsSub (createDocumentValidationPrompt formData)
      (formData.skills.getD "Not provided") := by
    refine ⟨promptIntro ++ formData.fullName ++ promptAfterFullName ++ formData.email
        ++ promptAfterEmail ++ (formData.phone.getD "Not provided") ++ promptAfterPhone,
      promptAfterSkills ++ (formData.experience.getD "Not provided") ++ promptTail, ?_⟩
    simp [createDocumentValidationPrompt, String.append_assoc]
  have h5 : containsSub (createDocumentValidationPrompt formData)
      (formData.experience.getD "Not provided") := by
    refine ⟨promptIntro ++ formData.fullName ++ promptAfterFullName ++ formData.email
        ++ promptAfterEmail ++ (formData.phone.getD "Not provided") ++ promptAfterPhone
        ++ (formData.skills.getD "Not provided") ++ promptAfterSkills, promptTail, ?_⟩
    simp [createDocumentValidationPrompt, String.append_assoc]
  exact ⟨h1, h2, h3, h4, h5⟩

/-! The upload endpoint (`cvRouter.upload` with `validateFileContent`).
The base64 decode of the request's `fileContent` is abstracted: the
decoded buffer is given as a byte list. Database, object-store and
trigger outcomes are supplied as parameters; performed side effects are
collected in a list. -/

/-- 10MB limit (`MAX_FILE_SIZE = 10 * 1024 * 1024`). -/
def MAX_FILE_SIZE : Nat := 10 * 1024 * 1024

/-- The `%PDF` magic bytes. -/
def PDF_MAGIC_BYTES : List Nat := [0x25, 0x50, 0x44, 0x46]

/-- `fileName.toLowerCase()`. -/
def strToLower (s : String) : String := ⟨s.toList.map Char.toLower⟩

/-- `s.endsWith(suffix)`. -/
def strEndsWith (s suf : String) : Bool :=
  suf.toList.reverse.isPrefixOf s.toList.reverse

/-- `validateFileContent`: reject a decoded buffer over 10MB, then one
whose first four bytes are not `%PDF` (`PDF_MAGIC_BYTES.every((byte, i) =>
magicBytes[i] === byte)` holds exactly when the first four bytes equal the
magic list), then a file name that does not end in `.pdf` case
insensitively; otherwise return the buffer. -/
def validateFileContent (fileContentBytes : List Nat) (fileName : String) :
    Except String (List Nat) :=
  if fileContentBytes.length > MAX_FILE_SIZE then
    Except.error "File too large. Maximum size is 10MB"
  else if ¬ fileContentBytes.take 4 = PDF_MAGIC_BYTES then
    Except.error "Invalid file format. Only PDF files are allowed."
  else if ¬ strEndsWith (strToLower fileName) ".pdf" = true then
    Except.error "Invalid file extension. Only .pdf files are allowed."
  else Except.ok fileContentBytes

/-- `pat` occurs as a substring of `s` (`String.prototype.includes`). -/
def strContains (s pat : String) : Bool :=
  s.toList.tails.any (fun t => pat.toList.isPrefixOf t)

/-- The outer catch of `cvRouter.upload`: validation errors are rethrown
as-is, MinIO connection and unique-constraint errors are translated, and
anything else becomes a generic message. -/
def mapUploadError (m : String) : String :=
  if strContains m "File too large" || strContains m "Invalid file format"
      || strContains m "Invalid file extension" then m
  else if strContains m "ECONNREFUSED" || strContains m "ENOTFOUND" then
    "Storage service is currently unavailable. Please try again later."
  else if strContains m "Unique constraint" then
    "A CV with this email already exists."
  else "Failed to upload CV. Please try again."

/-- The upload request after zod parsing, with the decoded file buffer. -/
structure UploadInput where
  fullName : String
  email : String
  phone : Option String
  skills : Option String
  experience : Option String
  fileName : String
  fileContentBytes : List Nat
deriving DecidableEq, Repr

/-- A side effect performed by the upload mutation. -/
inductive UploadEffect where
  | putObject (objectName : String)
  | dbCreate (id : String)
  | triggerTask (id : String)
deriving DecidableEq, Repr

/-- The value returned by a successful upload. -/
structure UploadResult where
  success : Bool
  id : String
  message : String
deriving DecidableEq, Repr

/-- `cvRouter.upload`: validate the file first; then store the object
under `` `${timestamp}-${fileName}` ``, create the database record, and
attempt to trigger the validation task inside its own try/catch whose
failure is swallowed (`// Don't fail the upload if validation trigger
fails`); finally return `{ success: true, id, message }`. Any throw
before the return is mapped by the outer catch; a throw stops the
effect sequence at that point. -/
def uploadCV (input : UploadInput) (timestamp : Nat)
    (storeResult : Except String Unit) (createResult : Except String String)
    (_triggerResult : Except String Unit) :
    Except String UploadResult × List UploadEffect :=
  match validateFileContent input.fileContentBytes input.fileName with
  | .error m => (Except.error (mapUploadError m), [])
  | .ok _ =>
      let uniqueFileName := toString timestamp ++ "-" ++ input.fileName
      match storeResult with
      | .error m => (Except.error (mapUploadError m), [])
      | .ok _ =>
          match createResult with
          | .error m =>
              (Except.error (mapUploadError m), [UploadEffect.putObject uniqueFileName])
          | .ok newId =>
              (Except.ok ⟨true, newId, "CV uploaded successfully. AI validation is in progress."⟩,
                [UploadEffect.putObject uniqueFileName, UploadEffect.dbCreate newId,
                 UploadEffect.triggerTask newId])

/-- C9: an upload whose decoded content exceeds 10MB, or whose first four
bytes are not `%PDF`, or whose file name does not end in `.pdf`
case-insensitively, results in an error with no side effect performed: no
object is stored and no record is created. -/
theorem C9_invalid_upload_rejected (input : UploadInput) (ts : Nat)
    (store : Except String Unit) (create : Except String String) (trig : Except String Unit)
    (h : input.fileContentBytes.length > MAX_FILE_SIZE
      ∨ input.fileContentBytes.take 4 ≠ PDF_MAGIC_BYTES
      ∨ strEndsWith (strToLower input.fileName) ".pdf" = false) :
    (∃ m, (uploadCV input ts store create trig).1 = Except.error m)
    ∧ (uploadCV input ts store create trig).2 = [] := by
  cases hv : validateFileContent input.fileContentBytes input.fileName with
  | error m =>
      constructor
      · exact ⟨mapUploadError m, by simp [uploadCV, hv]⟩
      · simp [uploadCV, hv]
  | ok b =>
      exfalso
      rw [validateFileContent] at hv
      split_ifs at hv with h1 h2 h3
      rcases h with ha | hb | hc
      · exact h1 ha
      · exact hb h2
      · rw [hc] at h3
        exact Bool.false_ne_true h3

/-- C9 witness: a four-byte `%PDF` buffer under a name not ending in
`.pdf` is rejected with no effects. -/
theorem C9_witness :
    ((⟨"Jane Doe", "jane@example.com", none, none, none, "resume.txt",
        [0x25, 0x50, 0x44, 0x46]⟩ : UploadInput).fileContentBytes.length > MAX_FILE_SIZE
      ∨ (⟨"Jane Doe", "jane@example.com", none, none, none, "resume.txt",
          [0x25, 0x50, 0x44, 0x46]⟩ : UploadInput).fileContentBytes.take 4 ≠ PDF_MAGIC_BYTES
      ∨ strEndsWith (strToLower (⟨"Jane Doe", "jane@example.com", none, none, none,
          "resume.txt", [0x25, 0x50, 0x44, 0x46]⟩ : UploadInput).fileName) ".pdf" = false)
    ∧ ((∃ m, (uploadCV ⟨"Jane Doe", "jane@example.com", none, none, none, "resume.txt",
          [0x25, 0x50, 0x44, 0x46]⟩ 1700000000000 (Except.ok ()) (Except.ok "cv_9")
          (Except.ok ())).1 = Except.error m)
      ∧ (uploadCV ⟨"Jane Doe", "jane@example.com", none, none, none, "resume.txt",
          [0x25, 0x50, 0x44, 0x46]⟩ 1700000000000 (Except.ok ()) (Except.ok "cv_9")
          (Except.ok ())).2 = []) :=
  ⟨Or.inr (Or.inr (by decide)),
    C9_invalid_upload_rejected
      ⟨"Jane Doe", "jane@example.com", none, none, none, "resume.txt",
        [0x25, 0x50, 0x44, 0x46]⟩ 1700000000000 (Except.ok ()) (Except.ok "cv_9")
      (Except.ok ()) (Or.inr (Or.inr (by decide)))⟩

/-- C10: when the file passes validation and both the object store and the
record creation succeed but triggering the background task throws, the
upload still returns the success result carrying the new record's id —
the trigger failure is swallowed. -/
theorem C10_trigger_failure_swallowed (input : UploadInput) (ts : Nat) (newId : String)
    (m : String)
    (hok : ∃ b, validateFileContent input.fileContentBytes input.fileName = Except.ok b) :
    (uploadCV input ts (Except.ok ()) (Except.ok newId) (Except.error m)).1 =
      Except.ok ⟨true, newId, "CV uploaded successfully. AI validation is in progress."⟩ := by
  obtain ⟨b, hb⟩ := hok
  simp [uploadCV, hb]

/-- C10 witness: a valid PDF upload whose trigger call throws still
returns success with the created id. -/
theorem C10_witness :
    (∃ b, validateFileContent [0x25, 0x50, 0x44, 0x46] "cv.pdf" = Except.ok b)
    ∧ (uploadCV ⟨"Jane Doe", "jane@example.com", none, none, none, "cv.pdf",
        [0x25, 0x50, 0x44, 0x46]⟩ 1700000000000 (Except.ok ()) (Except.ok "cv_42")
        (Except.error "Failed to trigger validation task: TRIGGER_API_KEY missing")).1 =
      Except.ok ⟨true, "cv_42", "CV uploaded successfully. AI validation is in progress."⟩ :=
  ⟨⟨[0x25, 0x50, 0x44, 0x46], rfl⟩,
    C10_trigger_failure_swallowed
      ⟨"Jane Doe", "jane@example.com", none, none, none, "cv.pdf",
        [0x25, 0x50, 0x44, 0x46]⟩ 1700000000000 "cv_42"
      "Failed to trigger validation task: TRIGGER_API_KEY missing"
      ⟨[0x25, 0x50, 0x44, 0x46], rfl⟩⟩

end CVValidation
